import Mathlib

/-!
Shallow embedding of `obspy/core/event/resourceid.py` (the ResourceIdentifier
registry) and proofs about it.

Modelling choices, stated once here and referenced from the definitions:

* A Python object is modelled as a pair of its identity (`id(obj)`, a `Nat`)
  and an abstract value (a `Nat`) used for `==` comparisons.  Two objects are
  `==`-equal iff their values agree; they are identical iff their identities
  agree.
* `_ResourceKey` interning (`_ResourceKey._singleton_cache`, a
  `WeakValueDictionary`) is modelled by an explicit interner: an association
  list from raw keys (string, int, or `None`) to key-instance identities plus
  a fresh-identity counter.  The counter also plays the role of `id()` for
  key instances (Python guarantees distinct ids for concurrently live
  objects).  Garbage collection of key instances themselves is not modelled:
  every claim below only involves keys that are strongly held by a handle.
* `WeakValueDictionary` liveness of `_id_object_map` is modelled by entry
  presence: an entry vanishes exactly when its value object dies, captured by
  the explicit `gcObject` transition that deletes every map entry holding the
  dead object.  "Composite key is dead" in the source means "lookup misses".
* Python dictionaries are modelled as association lists with `alGet`/`alPut`
  (first-match lookup, replace-in-place insert).
* The registry tables are keyed by key-instance identities (`Nat`).  A handle
  attribute that may be absent from `__dict__` is an `Option`.  The source
  raises `TypeError` when a weak dictionary is indexed with `None`; every
  such access in the source is wrapped in `except (KeyError, TypeError)`, and
  the model returns `none` there, except the (uncaught, crashing) corner in
  `set_referred_object` with a `None` resource key, which the model skips;
  no theorem below depends on that corner.
* `uuid4()` is an oracle: functions that generate a uuid take the generated
  token as an explicit argument.
* get-object hooks (`_get_object_hook`) are arbitrary callables; they are
  modelled as functions from the id string to an optional object that may
  also rewrite the registry tables (a Python hook can construct and bind
  handles).  Hook registration order is the list order.
-/

namespace ObsPyRid

/-- A Python object: `oid` is its identity (`id(obj)`), `val` the abstract
value deciding `==` comparisons. -/
structure Obj where
  oid : Nat
  val : Nat
deriving DecidableEq, Repr

/-- Raw values accepted by `_ResourceKey.get_resource_key` (strings, ints,
and `None`, which is hashable in Python). -/
inductive Raw where
  | rstr (s : String)
  | rint (n : Nat)
  | rnone
deriving DecidableEq, Repr

/-- Association-list lookup, first match wins (Python dict lookup). -/
def alGet {α β : Type} [DecidableEq α] (k : α) : List (α × β) → Option β
  | [] => none
  | (a, b) :: t => if a = k then some b else alGet k t

/-- Association-list insert: replace the existing binding in place, or append
a new one (Python dict `d[k] = v`). -/
def alPut {α β : Type} [DecidableEq α] (k : α) (v : β) : List (α × β) → List (α × β)
  | [] => [(k, v)]
  | (a, b) :: t => if a = k then (k, v) :: t else (a, b) :: alPut k v t

/-- The `_ResourceKey` interner: `cache` maps raw values to the identity of
the live singleton instance, `next` is the next fresh instance identity. -/
structure Interner where
  cache : List (Raw × Nat)
  next : Nat
deriving DecidableEq, Repr

/-- `_ResourceKey.get_resource_key`: return the cached singleton for the raw
value, or create, cache and return a fresh instance. -/
def get_resource_key (r : Raw) (itn : Interner) : Nat × Interner :=
  match alGet r itn.cache with
  | some k => (k, itn)
  | none => (itn.next, ⟨alPut r itn.next itn.cache, itn.next + 1⟩)

/-- Values that can be passed where the source may pass an object: a string,
an int, an arbitrary object, or a `_ResourceKey` instance (identified by its
instance identity). -/
inductive PyParent where
  | pstr (s : String)
  | pint (n : Nat)
  | pobj (o : Obj)
  | pkey (k : Nat)
deriving DecidableEq, Repr

/-- The raw value `_ResourceKeyDescriptor.__set__` interns for a non-`None`
value: strings and ints are used directly, anything else (an object — or a
`_ResourceKey` instance) is replaced by `id(value)`. -/
def rawOf : PyParent → Raw
  | .pstr s => .rstr s
  | .pint n => .rint n
  | .pobj o => .rint o.oid
  | .pkey k => .rint k

/-- A `ResourceIdentifier` instance: each field mirrors one attribute of the
Python object, `none` meaning the attribute is absent from `__dict__`
(`pfx` stands for the source's `_prefix`; that name is reserved in this
development). -/
structure RID where
  fixed : Bool
  idDict : Option String
  pfx : Option String
  uuid : Option String
  resource_key : Option Nat
  parent_key : Option Nat
  object_id : Option Nat
deriving DecidableEq, Repr

/-- A freshly `__new__`-allocated `ResourceIdentifier`: no instance
attributes set (`fixed` only ever read after being written, default
irrelevant; we use `false`). -/
def blankRID : RID :=
  { fixed := false, idDict := none, pfx := none, uuid := none,
    resource_key := none, parent_key := none, object_id := none }

/-- `id.endswith("/")`. -/
def endsSlash (p : String) : Bool :=
  p.data.getLast? == some '/'

/-- The `id` property getter: a fixed handle returns `__dict__.get("id")`
(which is `None` when the attribute was never stored); a generated handle
concatenates prefix (with a `/` appended unless already present) and uuid.
For a generated handle the `_prefix`/`_uuid` attributes always exist; the
`none` fallback mirrors the `AttributeError` corner that no constructed
handle reaches. -/
def idOpt (h : RID) : Option String :=
  if h.fixed then h.idDict
  else
    match h.pfx, h.uuid with
    | some p, some u => some ((if endsSlash p then p else p ++ "/") ++ u)
    | _, _ => none

/-- The `_object_key` property: the pair `(self._object_id, self.id)`. -/
def object_key (h : RID) : Option Nat × Option String :=
  (h.object_id, idOpt h)

/-- `_ResourceKeyDescriptor.__set__` targeting `_parent_key`: a `None` value
is silently ignored (the body is guarded by `if value is not None`); any
other value is reduced to a raw (`id()` for non-int/str) and interned. -/
def descriptorSetParent (h : RID) (v : Option PyParent) (itn : Interner) :
    RID × Interner :=
  match v with
  | none => (h, itn)
  | some p =>
      ({ h with parent_key := some (get_resource_key (rawOf p) itn).1 },
       (get_resource_key (rawOf p) itn).2)

/-- `_ResourceKeyDescriptor.__set__` targeting `_resource_key` (same
semantics as for the parent key). -/
def descriptorSetResourceKey (h : RID) (v : Option PyParent) (itn : Interner) :
    RID × Interner :=
  match v with
  | none => (h, itn)
  | some p =>
      ({ h with resource_key := some (get_resource_key (rawOf p) itn).1 },
       (get_resource_key (rawOf p) itn).2)

/-- Argument to the `id` setter: a string, or a value of any non-string
type. -/
inductive PyVal where
  | vstr (s : String)
  | vnonstr
deriving DecidableEq, Repr

/-- Result of running the `id` property setter. -/
structure SetIdResult where
  rid : RID
  typeError : Bool
  warned : Bool
deriving DecidableEq, Repr

/-- The `id` property setter: sets `self.fixed = True` first, then raises
`TypeError` for a non-string value (leaving `fixed` mutated), otherwise
warns when `_resource_key__` is already in `__dict__` and stores the
string under `__dict__["id"]`. -/
def idSetter (h : RID) (v : PyVal) : SetIdResult :=
  match v with
  | .vnonstr => { rid := { h with fixed := true }, typeError := true, warned := false }
  | .vstr s =>
      { rid := { h with fixed := true, idDict := some s },
        typeError := false,
        warned := h.resource_key.isSome }

/-- `ResourceIdentifier.__init__` with an explicit string id: `self.fixed =
True; self.id = id` (via the setter), then `self._resource_key = self.id`
and `self._parent_key = parent` through the descriptor.  Binding an initial
referred object is done by the caller via `set_referred_object`, as in the
source. -/
def initFixed (s : String) (parent : Option PyParent) (itn : Interner) :
    RID × Interner :=
  let h1 := (idSetter blankRID (PyVal.vstr s)).rid
  let r1 := descriptorSetResourceKey h1 (some (PyParent.pstr s)) itn
  descriptorSetParent r1.1 parent r1.2

/-- `ResourceIdentifier.__init__` with no id: `fixed = False`, a prefix and a
freshly generated uuid (passed in as an oracle), then key interning as in
`initFixed`. -/
def initGenerated (p u : String) (parent : Option PyParent) (itn : Interner) :
    RID × Interner :=
  let h0 : RID :=
    { fixed := false, idDict := none, pfx := some p, uuid := some u,
      resource_key := none, parent_key := none, object_id := none }
  let r1 := descriptorSetResourceKey h0
    (match idOpt h0 with | some s => some (PyParent.pstr s) | none => none) itn
  descriptorSetParent r1.1 parent r1.2

/-- `ResourceIdentifier.__deepcopy__` (also reached by `copy()`):
`new.__dict__.update(self.__dict__)` copies every attribute, sharing the
interned `_ResourceKey` instances (`_ResourceKey.__deepcopy__` returns
`self`), then `new._parent_key = None` goes through the descriptor, which
ignores `None` — a silent no-op. -/
def deepcopyRID (h : RID) (itn : Interner) : RID × Interner :=
  let copied : RID :=
    { fixed := h.fixed, idDict := h.idDict, pfx := h.pfx, uuid := h.uuid,
      resource_key := h.resource_key, parent_key := h.parent_key,
      object_id := h.object_id }
  descriptorSetParent copied none itn

/-- `ResourceIdentifier.__setstate__`: `self.__dict__ = state` (the pickled
state carries a fresh, non-interned `_ResourceKey` under `_resource_key__`),
then `self._parent_key = None` (descriptor no-op) and `self._resource_key =
_ResourceKey.get_resource_key(self.id)`.  The right-hand side interns the id
string, but the descriptor then receives that key *instance* — not an
int/str — and therefore interns `id(key)` instead. -/
def setstateRID (state : RID) (itn : Interner) : RID × Interner :=
  let p1 := descriptorSetParent state none itn
  let kr := get_resource_key
    (match idOpt p1.1 with | some s => Raw.rstr s | none => Raw.rnone) p1.2
  descriptorSetResourceKey p1.1 (some (PyParent.pkey kr.1)) kr.2

/-! ## QuakeML URI validation (`get_quakeml_uri_str`)

The source matches the anchored regex

  (smi|quakeml):[\w\d][\w\d\-\.\*\(\)_~']{2,}/[\w\d\-\.\*\(\)_~'][\w\d\-\.\*\(\)\+\?_~'=,;#/&]*$

with `re.match`.  `\w` is modelled over ASCII (letters, digits, underscore);
every id appearing in this development is ASCII.  Because the `{2,}`-repeated
class excludes `/`, backtracking never helps: a string matches iff the
maximal-munch parse below succeeds, segment by segment. -/

/-- `\w` (ASCII): letter, digit or underscore.  `\d` is subsumed. -/
def wordChar (c : Char) : Bool :=
  c.isAlpha || c.isDigit || c == '_'

/-- The class `[\w\d\-\.\*\(\)_~']` used for the tail of the first segment
and the head of the second (the apostrophe is written numerically). -/
def seg1Char (c : Char) : Bool :=
  wordChar c || c == '-' || c == '.' || c == '*' || c == '(' || c == ')' ||
    c == '~' || c == Char.ofNat 39

/-- The class `[\w\d\-\.\*\(\)\+\?_~'=,;#/&]` for the rest of the second
segment. -/
def seg2Char (c : Char) : Bool :=
  seg1Char c || c == '+' || c == '?' || c == '=' || c == ',' || c == ';' ||
    c == '#' || c == '/' || c == '&'

/-- Strip the `(smi|quakeml):` scheme, or fail. -/
def afterScheme (cs : List Char) : Option (List Char) :=
  if cs.take 4 = "smi:".data then some (cs.drop 4)
  else if cs.take 8 = "quakeml:".data then some (cs.drop 8)
  else none

/-- Anchored match of the QuakeML URI regex on a character list. -/
def validChars (cs : List Char) : Bool :=
  match afterScheme cs with
  | none => false
  | some r =>
      match r with
      | [] => false
      | c :: rest =>
          wordChar c &&
          decide (2 ≤ (rest.takeWhile seg1Char).length) &&
          (match rest.dropWhile seg1Char with
           | '/' :: c2 :: r2 => seg1Char c2 && r2.all seg2Char
           | _ => false)

/-- `re.match(regex, s) is not None` for the QuakeML URI regex. -/
def validQuakemlUri (s : String) : Bool :=
  validChars s.data

/-- The characters `str.strip()` removes (Python's whitespace set). -/
def isPySpace (c : Char) : Bool :=
  c == ' ' || c == '\t' || c == '\n' || c == '\r' ||
    c == Char.ofNat 11 || c == Char.ofNat 12

/-- `str(id).strip() == ""`: true iff every character is whitespace. -/
def stripIsEmpty (s : String) : Bool :=
  s.data.all isPySpace

/-- The body of `get_quakeml_uri_str` after the whitespace substitution:
return the id if it matches, else prefix `smi:{authority}/` and re-check,
else raise `ValueError`. -/
def quakemlUriCore (i authority_id : String) : Except String String :=
  if validQuakemlUri i then .ok i
  else
    if validQuakemlUri ("smi:" ++ authority_id ++ "/" ++ i) then
      .ok ("smi:" ++ authority_id ++ "/" ++ i)
    else
      .error ("The id " ++ i ++ " is not a valid QuakeML resource identifier.")

/-- `ResourceIdentifier.get_quakeml_uri_str`: reads `self.id` into a local
(`str(None)` is the string "None" for the corner where the id attribute is
absent), substitutes a fresh uuid when the id is empty or whitespace-only,
and never writes any attribute: the handle is untouched. -/
def get_quakeml_uri_str (h : RID) (authority_id uuidStr : String) :
    Except String String :=
  let id0 := (idOpt h).getD "None"
  quakemlUriCore (if stripIsEmpty id0 then uuidStr else id0) authority_id

/-! ## The class-level registry and the bind/resolve operations -/

/-- A composite object key: `(self._object_id, self.id)`. -/
abbrev CompKey := Option Nat × Option String

/-- The two non-fatal notifications the module can emit via
`warnings.warn`. -/
inductive Warn where
  | rebindingConflict (idStr : Option String)
  | livenessLost (oid : Nat) (idStr : Option String)
deriving DecidableEq, Repr

/-- The three class-level tables of `ResourceIdentifier`:
`_id_object_map` (`WeakValueDictionary`: entry present iff the object is
alive), `_id_order` and `_parent_id_tree` (both `WeakKeyDictionary`, keyed
by key-instance identities; collection of key instances is outside the
model, see the header). -/
structure RegState where
  id_object_map : List (CompKey × Obj)
  id_order : List (Nat × List CompKey)
  parent_id_tree : List (Nat × List (Nat × CompKey))
deriving DecidableEq, Repr

/-- The empty registry. -/
def emptyReg : RegState :=
  { id_object_map := [], id_order := [], parent_id_tree := [] }

/-- A registered get-object hook: receives `self.id` and may also rewrite
the registry tables (a Python hook can construct and bind handles). -/
abbrev Hook := Option String → RegState → Option Obj × RegState

/-- `register_get_object_hook`: appends to the hook list. -/
def register_get_object_hook (hooks : List Hook) (f : Hook) : List Hook :=
  hooks ++ [f]

/-- The object becomes unreachable: the `WeakValueDictionary`
`_id_object_map` drops every entry whose value is the dead object.  The
other tables keep their (strongly held) composite-key tuples; they are
pruned lazily on read, as in the source. -/
def gcObject (oid : Nat) (σ : RegState) : RegState :=
  { σ with id_object_map := σ.id_object_map.filter (fun p => !(p.2.oid == oid)) }

/-- Lines 405-410 of `set_referred_object`: the object of the *last*
`_id_order` entry for the resource key, if that entry is still live;
`KeyError`/`IndexError` yield `None`.  (A `None` resource key would raise
an uncaught `TypeError` in the source; the model returns `none`, and no
theorem depends on that corner.) -/
def lastLive (σ : RegState) (rk : Option Nat) : Option Obj :=
  match rk with
  | none => none
  | some k =>
      match alGet k σ.id_order with
      | none => none
      | some l =>
          match l.getLast? with
          | none => none
          | some ck => alGet ck σ.id_object_map

/-- Result of `set_referred_object`. -/
structure SetResult where
  rid : RID
  st : RegState
  itn : Interner
  warned : Bool
deriving Repr

/-- `ResourceIdentifier.set_referred_object(referred_object, warn, parent)`:
look up `old` (own composite key, else last `_id_order` entry if live), emit
the rebinding-conflict warning when `warn` and `old` exists and differs by
`!=` from the new object, record the new object id, re-scope if a parent is
given or already present (updating `_parent_id_tree`), store the object
under the new composite key and append that key to `_id_order`. -/
def set_referred_object (h : RID) (obj : Obj) (warn : Bool)
    (parent : Option PyParent) (σ : RegState) (itn : Interner) : SetResult :=
  let old : Option Obj :=
    match alGet (object_key h) σ.id_object_map with
    | some o => some o
    | none => lastLive σ h.resource_key
  let warned := warn && (match old with
    | some o => !(o.val == obj.val)
    | none => false)
  let h1 : RID := { h with object_id := some obj.oid }
  let h2 := (descriptorSetParent h1 parent itn).1
  let itn2 := (descriptorSetParent h1 parent itn).2
  let σ1 :=
    if parent.isSome || h.parent_key.isSome then
      match h2.parent_key, h2.resource_key with
      | some pk, some rk =>
          { σ with parent_id_tree :=
              (alPut pk (alPut rk (object_key h2) ((alGet pk σ.parent_id_tree).getD []))
                σ.parent_id_tree) }
      | _, _ => σ
    else σ
  let σ2 := { σ1 with id_object_map := alPut (object_key h2) obj σ1.id_object_map }
  let σ3 :=
    match h2.resource_key with
    | some rk =>
        { σ2 with id_order :=
            (alPut rk ((alGet rk σ2.id_order).getD [] ++ [object_key h2]) σ2.id_order) }
    | none => σ2
  { rid := h2, st := σ3, itn := itn2, warned := warned }

/-- The pruning scan inside `_get_newest_object_with_same_resource_id`,
acting on the *reversed* `_id_order` list (so the head is the most recent
entry): pop entries that no longer resolve in `_id_object_map` or whose id
component disagrees with the handle's id; stop at the first survivor.
Returns the result and the remaining (still reversed) list. -/
def scanRev (m : List (CompKey × Obj)) (ids : Option String) :
    List CompKey → Option Obj × List CompKey
  | [] => (none, [])
  | ck :: rest =>
      match alGet ck m with
      | none => scanRev m ids rest
      | some obj => if ck.2 = ids then (some obj, ck :: rest) else scanRev m ids rest

/-- `ResourceIdentifier._get_newest_object_with_same_resource_id`: walk the
`_id_order` list for the handle's resource key from the tail backward,
popping stale entries in place, and return the first surviving object. -/
def get_newest_object_with_same_resource_id (h : RID) (σ : RegState) :
    Option Obj × RegState :=
  match h.resource_key with
  | none => (none, σ)
  | some rk =>
      match alGet rk σ.id_order with
      | none => (none, σ)
      | some l =>
          ((scanRev σ.id_object_map (idOpt h) l.reverse).1,
           { σ with id_order :=
               (alPut rk (scanRev σ.id_object_map (idOpt h) l.reverse).2.reverse
                 σ.id_order) })

/-- `ResourceIdentifier._get_object_from_parent_scope`: look up
`(parent_key, resource_key)` in `_parent_id_tree`, dereference the composite
key in `_id_object_map`, and accept only if the key's id component equals
the handle's current id.  A `None` parent or resource key raises
`TypeError`, caught alongside `KeyError`. -/
def get_object_from_parent_scope (h : RID) (σ : RegState) : Option Obj :=
  match h.parent_key with
  | none => none
  | some pk =>
      match alGet pk σ.parent_id_tree with
      | none => none
      | some inner =>
          match h.resource_key with
          | none => none
          | some rk =>
              match alGet rk inner with
              | none => none
              | some ck =>
                  match alGet ck σ.id_object_map with
                  | none => none
                  | some obj => if ck.2 = idOpt h then some obj else none

/-- Result of `get_referred_object` (and of the internal
`_get_similar_referred_object`). -/
structure GetResult where
  obj : Option Obj
  rid : RID
  st : RegState
  itn : Interner
  warns : List Warn
deriving Repr

/-- The liveness-lost warning emitted by `_get_similar_referred_object` when
the handle had recorded a bound object that is now unreachable. -/
def llWarn (h : RID) : List Warn :=
  match h.object_id with
  | some n => [Warn.livenessLost n (idOpt h)]
  | none => []

/-- `ResourceIdentifier._get_similar_referred_object`: warn if the handle
was bound, try the parent scope, then the newest-assignment fallback
(pruning in place), and on success bind the found object to the handle with
`warn=False`. -/
def get_similar_referred_object (h : RID) (σ : RegState) (itn : Interner) :
    GetResult :=
  match get_object_from_parent_scope h σ with
  | some o =>
      { obj := some o,
        rid := (set_referred_object h o false none σ itn).rid,
        st := (set_referred_object h o false none σ itn).st,
        itn := (set_referred_object h o false none σ itn).itn,
        warns := llWarn h }
  | none =>
      match (get_newest_object_with_same_resource_id h σ).1 with
      | some o =>
          { obj := some o,
            rid := (set_referred_object h o false none
              (get_newest_object_with_same_resource_id h σ).2 itn).rid,
            st := (set_referred_object h o false none
              (get_newest_object_with_same_resource_id h σ).2 itn).st,
            itn := (set_referred_object h o false none
              (get_newest_object_with_same_resource_id h σ).2 itn).itn,
            warns := llWarn h }
      | none =>
          { obj := none, rid := h,
            st := (get_newest_object_with_same_resource_id h σ).2,
            itn := itn, warns := llWarn h }

/-- The hook loop of `get_referred_object`: call each registered hook with
`self.id` until one returns a non-`None` object, threading any registry
mutations a hook performs. -/
def runHooks (hooks : List Hook) (ids : Option String) (σ : RegState) :
    Option Obj × RegState :=
  match hooks with
  | [] => (none, σ)
  | hk :: rest =>
      match hk ids σ with
      | (some o, σ1) => (some o, σ1)
      | (none, σ1) => runHooks rest ids σ1

/-- The hook-path tail of `get_referred_object`, factored out with the
result `g` of `_get_similar_referred_object` as an argument: run the hooks
on `g`'s registry; a hit is bound via `set_referred_object(out)` with the
*default* `warn=True`. -/
def hookPhase (hooks : List Hook) (g : GetResult) : GetResult :=
  match (runHooks hooks (idOpt g.rid) g.st).1 with
  | some o =>
      { obj := some o,
        rid := (set_referred_object g.rid o true none
          (runHooks hooks (idOpt g.rid) g.st).2 g.itn).rid,
        st := (set_referred_object g.rid o true none
          (runHooks hooks (idOpt g.rid) g.st).2 g.itn).st,
        itn := (set_referred_object g.rid o true none
          (runHooks hooks (idOpt g.rid) g.st).2 g.itn).itn,
        warns := g.warns ++
          (if (set_referred_object g.rid o true none
              (runHooks hooks (idOpt g.rid) g.st).2 g.itn).warned then
            [Warn.rebindingConflict (idOpt g.rid)]
          else []) }
  | none =>
      { obj := none, rid := g.rid,
        st := (runHooks hooks (idOpt g.rid) g.st).2,
        itn := g.itn, warns := g.warns }

/-- `ResourceIdentifier.get_referred_object`: direct lookup of the handle's
own composite key, then `_get_similar_referred_object`, then the registered
hooks; every failure yields `None`, never an exception. -/
def get_referred_object (h : RID) (hooks : List Hook) (σ : RegState)
    (itn : Interner) : GetResult :=
  match alGet (object_key h) σ.id_object_map with
  | some o => { obj := some o, rid := h, st := σ, itn := itn, warns := [] }
  | none =>
      match (get_similar_referred_object h σ itn).obj with
      | some _ => get_similar_referred_object h σ itn
      | none => hookPhase hooks (get_similar_referred_object h σ itn)

/-- Result of `get_quakeml_id`. -/
structure QidResult where
  rid : RID
  self : RID
  st : RegState
  itn : Interner
  warns : List Warn
deriving Repr

/-- The binding tail of `get_quakeml_id`, factored out with the freshly
built handle and the result `g` of resolving the original handle as
arguments.  `parent=self._parent_key` passes the `_ResourceKey` instance
(or `None`) to `set_referred_object`, whose descriptor interns `id(key)`
rather than reusing the key. -/
def quakemlIdBind (rid : RID) (g : GetResult) : Except String QidResult :=
  match g.obj with
  | none => .ok { rid := rid, self := g.rid, st := g.st, itn := g.itn, warns := g.warns }
  | some o =>
      .ok { rid := (set_referred_object rid o false
              (match g.rid.parent_key with
               | some pk => some (PyParent.pkey pk)
               | none => none) g.st g.itn).rid,
            self := g.rid,
            st := (set_referred_object rid o false
              (match g.rid.parent_key with
               | some pk => some (PyParent.pkey pk)
               | none => none) g.st g.itn).st,
            itn := (set_referred_object rid o false
              (match g.rid.parent_key with
               | some pk => some (PyParent.pkey pk)
               | none => none) g.st g.itn).itn,
            warns := g.warns ++
              (if (set_referred_object rid o false
                  (match g.rid.parent_key with
                   | some pk => some (PyParent.pkey pk)
                   | none => none) g.st g.itn).warned then
                [Warn.rebindingConflict (idOpt rid)]
              else []) }

/-- `ResourceIdentifier.get_quakeml_id`: build a new handle from the
URI-formatted string; if the original currently resolves, bind that object
to the new handle with `warn=False` and `parent=self._parent_key`. -/
def get_quakeml_id (h : RID) (authority_id uuidStr : String)
    (hooks : List Hook) (σ : RegState) (itn : Interner) :
    Except String QidResult :=
  match get_quakeml_uri_str h authority_id uuidStr with
  | .error e => .error e
  | .ok new_id =>
      quakemlIdBind (initFixed new_id none itn).1
        (get_referred_object h hooks σ (initFixed new_id none itn).2)

/-! ## Equality and hash -/

/-- `ResourceIdentifier.__eq__` against another handle: `self.id == other`
first tries string-vs-handle comparison, which reflects back into
`other.__eq__(self.id)`; the net result is id equality (including the
`None == None` corner). -/
def ridEqRid (a b : RID) : Bool :=
  idOpt a == idOpt b

/-- `ResourceIdentifier.__eq__` against a raw string: `self.id == other`. -/
def ridEqStr (a : RID) (s : String) : Bool :=
  idOpt a == some s

/-- `ResourceIdentifier.__hash__` on an id string, parameterised by the
(opaque, per-process) Python string hash: `hash("RESOURCE_ID") +
self.id.__hash__()`. -/
def ridHash (strHash : String → Int) (i : String) : Int :=
  strHash "RESOURCE_ID" + strHash i

/-! ## Specification-side definitions

These are written from the claims' wording (not from the source) and are
compared with the source-translated functions above. -/

/-- Well-formedness of `_id_object_map`: every key records a bound-object
identity (every entry was inserted by `set_referred_object` after
`self._object_id = id(referred_object)`).  Holds of every reachable
registry. -/
def mapKeysBound (σ : RegState) : Bool :=
  σ.id_object_map.all (fun p => p.1.1.isSome)

/-- Claim C3's notion of `old`: the object currently mapped by the handle's
own composite key or, if absent, the most recent *live* object in the
assignment-order list (scanning the whole list from the tail). -/
def oldClaim (h : RID) (σ : RegState) : Option Obj :=
  match alGet (object_key h) σ.id_object_map with
  | some o => some o
  | none =>
      match h.resource_key with
      | none => none
      | some rk =>
          ((alGet rk σ.id_order).getD []).reverse.findSome?
            (fun ck => alGet ck σ.id_object_map)

/-- Claim C3 as a predicate: a rebinding-conflict notification is signalled
iff `warn` holds, `oldClaim` exists and differs (by `!=`) from the new
object. -/
def warnClaim (h : RID) (obj : Obj) (warn : Bool) (σ : RegState) : Bool :=
  warn && (match oldClaim h σ with
    | some o => !(o.val == obj.val)
    | none => false)

/-- The source's actual notion of `old` in `set_referred_object`: own
composite key, else the object of the *last* assignment-order entry provided
that entry is still live (no backward scan). -/
def oldCode (h : RID) (σ : RegState) : Option Obj :=
  match alGet (object_key h) σ.id_object_map with
  | some o => some o
  | none => lastLive σ h.resource_key

/-- Claim C2, step 2: parent-scope lookup, accepted only if the found
composite key's id component equals the handle's current id, dereferenced in
the object map. -/
def parentStep (h : RID) (σ : RegState) : Option Obj :=
  match h.parent_key, h.resource_key with
  | some pk, some rk =>
      (match alGet pk σ.parent_id_tree with
       | none => none
       | some inner =>
           match alGet rk inner with
           | none => none
           | some ck =>
               if ck.2 = idOpt h then alGet ck σ.id_object_map else none)
  | _, _ => none

/-- Claim C2, step 3: an assignment-order entry survives when its composite
key is still live and its id component matches the handle's id. -/
def survives (m : List (CompKey × Obj)) (ids : Option String) (ck : CompKey) :
    Bool :=
  match alGet ck m with
  | some _ => ck.2 == ids
  | none => false

/-- Claim C2, step 3, result: first surviving match scanning the
assignment-order list from the tail backward. -/
def step3_first_survivor (h : RID) (σ : RegState) : Option Obj :=
  match h.resource_key with
  | none => none
  | some rk =>
      match alGet rk σ.id_order with
      | none => none
      | some l =>
          l.reverse.findSome? (fun ck =>
            if survives σ.id_object_map (idOpt h) ck then alGet ck σ.id_object_map
            else none)

/-- Claim C2, step 3, side effect: the scanned entries that were dead or
mismatched are popped from the tail. -/
def step3_pruned (h : RID) (σ : RegState) : RegState :=
  match h.resource_key with
  | none => σ
  | some rk =>
      match alGet rk σ.id_order with
      | none => σ
      | some l =>
          { σ with id_order :=
              (alPut rk
                ((l.reverse.dropWhile
                  (fun ck => !survives σ.id_object_map (idOpt h) ck)).reverse)
                σ.id_order) }

/-- Claim C2: the resolution result, evaluated in the stated priority order
with the first success winning, `none` when every step fails. -/
def resolveSpec (h : RID) (hooks : List Hook) (σ : RegState) : Option Obj :=
  match alGet (object_key h) σ.id_object_map with
  | some o => some o
  | none =>
      match parentStep h σ with
      | some o => some o
      | none =>
          match step3_first_survivor h σ with
          | some o => some o
          | none => (runHooks hooks (idOpt h) (step3_pruned h σ)).1

/-- A hook that consults external logic but does not touch the registry. -/
def liftHook (f : Option String → Option Obj) : Hook :=
  fun s σ => (f s, σ)

/-- Whether a warning list contains a rebinding-conflict notification. -/
def hasRebinding (ws : List Warn) : Bool :=
  ws.any (fun w => match w with
    | Warn.rebindingConflict _ => true
    | _ => false)

/-! ## Lemmas about the association lists and the interner -/

theorem alGet_alPut_self {α β : Type} [DecidableEq α] (k : α) (v : β)
    (l : List (α × β)) : alGet k (alPut k v l) = some v := by
  induction l with
  | nil => simp [alGet, alPut]
  | cons p t ih =>
      obtain ⟨a, b⟩ := p
      by_cases hak : a = k
      · simp [alGet, alPut, hak]
      · simp [alGet, alPut, hak, ih]

theorem alGet_alPut_ne {α β : Type} [DecidableEq α] {k k' : α} (v : β)
    (l : List (α × β)) (hne : k' ≠ k) : alGet k' (alPut k v l) = alGet k' l := by
  have hkk : k ≠ k' := Ne.symm hne
  induction l with
  | nil => simp [alGet, alPut, hkk]
  | cons p t ih =>
      obtain ⟨a, b⟩ := p
      by_cases hak : a = k
      · subst hak
        simp [alGet, alPut, hkk]
      · simp [alGet, alPut, hak, ih]

theorem alGet_none_of_keys_some {β : Type} (x : Option String)
    (l : List ((Option Nat × Option String) × β))
    (hwf : ∀ p ∈ l, p.1.1.isSome = true) :
    alGet ((none : Option Nat), x) l = none := by
  induction l with
  | nil => rfl
  | cons p t ih =>
      obtain ⟨⟨k1, k2⟩, o⟩ := p
      have hk : k1.isSome = true := by simpa using hwf _ (List.mem_cons_self _ _)
      have hne : ((k1, k2) : Option Nat × Option String) ≠ (none, x) := by
        intro hc
        rw [Prod.mk.injEq] at hc
        rw [hc.1] at hk
        simp at hk
      simp only [alGet, if_neg hne]
      exact ih (fun q hq => hwf q (List.mem_cons_of_mem _ hq))

theorem mapKeysBound_get_none (σ : RegState) (x : Option String)
    (hwf : mapKeysBound σ = true) :
    alGet ((none : Option Nat), x) σ.id_object_map = none := by
  refine alGet_none_of_keys_some x _ ?_
  intro p hp
  exact List.all_eq_true.mp hwf p hp

/-- Interning the same raw value twice yields the same key instance and
leaves the interner unchanged the second time. -/
theorem get_resource_key_stable (r : Raw) (itn : Interner) :
    get_resource_key r (get_resource_key r itn).2 =
      ((get_resource_key r itn).1, (get_resource_key r itn).2) := by
  unfold get_resource_key
  cases hc : alGet r itn.cache with
  | some k => simp [hc]
  | none => simp [hc, alGet_alPut_self]

/-! ## Bridging lemmas between the source functions and the claim-worded
specification functions -/

/-- The claim's formulation of the parent-scope step (guard the id first,
then dereference) agrees with the source's (dereference first, then guard). -/
theorem parentStep_eq (h : RID) (σ : RegState) :
    parentStep h σ = get_object_from_parent_scope h σ := by
  unfold parentStep get_object_from_parent_scope
  cases hpk : h.parent_key with
  | none => rfl
  | some pk =>
      cases hrk : h.resource_key with
      | none => cases halg : alGet pk σ.parent_id_tree <;> simp [halg]
      | some rk =>
          cases htree : alGet pk σ.parent_id_tree with
          | none => simp [htree]
          | some inner =>
              cases hinner : alGet rk inner with
              | none => simp [htree, hinner]
              | some ck =>
                  cases hmap : alGet ck σ.id_object_map with
                  | none =>
                      by_cases hid : ck.2 = idOpt h <;>
                        simp [htree, hinner, hmap, hid]
                  | some obj =>
                      by_cases hid : ck.2 = idOpt h <;>
                        simp [htree, hinner, hmap, hid]

/-- The pruning scan: its result is the first survidor in `findSome?` form,
and the kept entries are the suffix after dropping non-survivors. -/
theorem scanRev_eq (m : List (CompKey × Obj)) (ids : Option String) :
    ∀ l : List CompKey,
      scanRev m ids l =
        (l.findSome? (fun ck =>
           if survives m ids ck then alGet ck m else none),
         l.dropWhile (fun ck => !survives m ids ck)) := by
  intro l
  induction l with
  | nil => rfl
  | cons ck rest ih =>
      cases hm : alGet ck m with
      | none =>
          have hs : survives m ids ck = false := by simp [survives, hm]
          simp [scanRev, hm, List.findSome?, List.dropWhile, hs, ih]
      | some obj =>
          by_cases hid : ck.2 = ids
          · have hs : survives m ids ck = true := by
              simp [survives, hm, hid]
            simp [scanRev, hm, hid, List.findSome?, List.dropWhile, hs]
          · have hs : survives m ids ck = false := by
              simp [survives, hm]
              exact hid
            simp [scanRev, hm, hid, List.findSome?, List.dropWhile, hs, ih]

/-- If the scan found nothing, every scanned entry was popped. -/
theorem scanRev_none_nil (m : List (CompKey × Obj)) (ids : Option String)
    (l : List CompKey) (hnone : (scanRev m ids l).1 = none) :
    (scanRev m ids l).2 = [] := by
  induction l with
  | nil => rfl
  | cons ck rest ih =>
      cases hm : alGet ck m with
      | none =>
          simp only [scanRev, hm] at hnone ⊢
          exact ih hnone
      | some obj =>
          by_cases hid : ck.2 = ids
          · simp [scanRev, hm, hid] at hnone
          · simp only [scanRev, hm, if_neg hid] at hnone ⊢
            exact ih hnone

/-- The recency-fallback function in claim-worded form. -/
theorem get_newest_eq (h : RID) (σ : RegState) :
    get_newest_object_with_same_resource_id h σ =
      (step3_first_survivor h σ, step3_pruned h σ) := by
  unfold get_newest_object_with_same_resource_id step3_first_survivor step3_pruned
  cases hrk : h.resource_key with
  | none => rfl
  | some rk =>
      cases horder : alGet rk σ.id_order with
      | none => simp [horder]
      | some l => simp [horder, scanRev_eq]

/-- Pure hooks: the hook loop returns the first hit in registration order and
leaves the registry untouched. -/
theorem runHooks_lift (fs : List (Option String → Option Obj))
    (ids : Option String) (σ : RegState) :
    runHooks (fs.map liftHook) ids σ = (fs.findSome? (fun f => f ids), σ) := by
  induction fs with
  | nil => rfl
  | cons f rest ih =>
      cases hf : f ids with
      | none => simp [runHooks, liftHook, List.findSome?, hf, ih]
      | some o => simp [runHooks, liftHook, List.findSome?, hf]

/-- The recency fallback never touches `_id_object_map`. -/
theorem get_newest_map_unchanged (h : RID) (σ : RegState) :
    (get_newest_object_with_same_resource_id h σ).2.id_object_map =
      σ.id_object_map := by
  rw [get_newest_eq]
  show (step3_pruned h σ).id_object_map = σ.id_object_map
  unfold step3_pruned
  cases hrk : h.resource_key with
  | none => rfl
  | some rk =>
      cases horder : alGet rk σ.id_order with
      | none => simp [horder]
      | some l => simp [horder]

/-- Binding with the default `parent=None` leaves the parent key alone (the
descriptor ignores `None`). -/
theorem set_parent_unchanged (h : RID) (obj : Obj) (warn : Bool)
    (σ : RegState) (itn : Interner) :
    (set_referred_object h obj warn none σ itn).rid.parent_key = h.parent_key := rfl

/-- Likewise, binding with `parent=None` leaves the id alone. -/
theorem set_id_unchanged (h : RID) (obj : Obj) (warn : Bool)
    (σ : RegState) (itn : Interner) :
    idOpt (set_referred_object h obj warn none σ itn).rid = idOpt h := rfl

theorem get_similar_parent_unchanged (h : RID) (σ : RegState) (itn : Interner) :
    (get_similar_referred_object h σ itn).rid.parent_key = h.parent_key := by
  unfold get_similar_referred_object
  cases get_object_from_parent_scope h σ with
  | some o => exact set_parent_unchanged h o false σ itn
  | none =>
      cases (get_newest_object_with_same_resource_id h σ).1 with
      | some o =>
          exact set_parent_unchanged h o false
            (get_newest_object_with_same_resource_id h σ).2 itn
      | none => rfl

/-- Resolution never changes the handle's parent key (it only ever binds
with `parent=None`, which the descriptor ignores). -/
theorem get_rid_parent_unchanged (h : RID) (hooks : List Hook) (σ : RegState)
    (itn : Interner) :
    (get_referred_object h hooks σ itn).rid.parent_key = h.parent_key := by
  unfold get_referred_object
  cases alGet (object_key h) σ.id_object_map with
  | some o => rfl
  | none =>
      cases (get_similar_referred_object h σ itn).obj with
      | some o => exact get_similar_parent_unchanged h σ itn
      | none =>
          unfold hookPhase
          cases (runHooks hooks (idOpt (get_similar_referred_object h σ itn).rid)
              (get_similar_referred_object h σ itn).st).1 with
          | some o =>
              exact Eq.trans
                (set_parent_unchanged (get_similar_referred_object h σ itn).rid o true
                  (runHooks hooks (idOpt (get_similar_referred_object h σ itn).rid)
                    (get_similar_referred_object h σ itn).st).2
                  (get_similar_referred_object h σ itn).itn)
                (get_similar_parent_unchanged h σ itn)
          | none => exact get_similar_parent_unchanged h σ itn

/-- The object returned by `_get_similar_referred_object`: the parent-scope
hit, else the first surviving assignment-order entry. -/
theorem sim_obj (h : RID) (σ : RegState) (itn : Interner) :
    (get_similar_referred_object h σ itn).obj =
      (match get_object_from_parent_scope h σ with
       | some o => some o
       | none => step3_first_survivor h σ) := by
  unfold get_similar_referred_object
  cases hp : get_object_from_parent_scope h σ with
  | some o => rfl
  | none =>
      simp only [get_newest_eq]
      cases hn : step3_first_survivor h σ with
      | some o => rfl
      | none => rfl

/-- When both the parent scope and the recency fallback miss,
`_get_similar_referred_object` returns no object, leaves the handle and
interner alone, prunes the assignment order, and emits (at most) the
liveness-lost warning. -/
theorem sim_none_shape (h : RID) (σ : RegState) (itn : Interner)
    (hp : get_object_from_parent_scope h σ = none)
    (hn : step3_first_survivor h σ = none) :
    get_similar_referred_object h σ itn =
      { obj := none, rid := h, st := step3_pruned h σ, itn := itn,
        warns := llWarn h } := by
  unfold get_similar_referred_object
  simp only [hp, get_newest_eq, hn]

/-- Claim C2: `get_referred_object` returns exactly what the four-step
priority resolution of the specification returns. -/
theorem c2_resolution_priority_order (h : RID) (hooks : List Hook)
    (σ : RegState) (itn : Interner) :
    (get_referred_object h hooks σ itn).obj = resolveSpec h hooks σ := by
  unfold get_referred_object resolveSpec
  cases hd : alGet (object_key h) σ.id_object_map with
  | some o => rfl
  | none =>
      rw [parentStep_eq]
      cases hp : get_object_from_parent_scope h σ with
      | some o =>
          have hobj : (get_similar_referred_object h σ itn).obj = some o := by
            rw [sim_obj h σ itn, hp]
          simp only [hobj]
      | none =>
          cases hn : step3_first_survivor h σ with
          | some o =>
              have hobj : (get_similar_referred_object h σ itn).obj = some o := by
                rw [sim_obj h σ itn, hp, hn]
              simp only [hobj]
          | none =>
              have hshape := sim_none_shape h σ itn hp hn
              simp only [hshape]
              unfold hookPhase
              cases hr : (runHooks hooks (idOpt h) (step3_pruned h σ)).1 with
              | some o => simp only [hr]
              | none => simp only [hr]

/-! ## Handles freshly constructed from an explicit id -/

/-- The shape of a handle built by `ResourceIdentifier(id=s)` whose resource
key was interned to instance `k`: fixed, unbound, unscoped. -/
def mkFixedRID (s : String) (k : Nat) : RID :=
  { fixed := true, idDict := some s, pfx := none, uuid := none,
    resource_key := some k, parent_key := none, object_id := none }

theorem initFixed_eq (s : String) (itn : Interner) :
    initFixed s none itn =
      (mkFixedRID s (get_resource_key (Raw.rstr s) itn).1,
       (get_resource_key (Raw.rstr s) itn).2) := rfl

/-- Binding with `parent=None` leaves the interner untouched. -/
theorem set_itn_none (h : RID) (obj : Obj) (warn : Bool) (σ : RegState)
    (itn : Interner) :
    (set_referred_object h obj warn none σ itn).itn = itn := rfl

/-- The registry after binding `X` to a fresh fixed handle: the object map
gains `(id(X), s) ↦ X` and the assignment order for `k` gains `(id(X), s)`
at the tail; nothing else changes. -/
theorem set_fresh_st (s : String) (k : Nat) (X : Obj) (warn : Bool)
    (σ : RegState) (itn : Interner) :
    (set_referred_object (mkFixedRID s k) X warn none σ itn).st =
      { σ with
        id_object_map :=
          alPut ((some X.oid : Option Nat), some s) X σ.id_object_map,
        id_order :=
          alPut k ((alGet k σ.id_order).getD [] ++
            [((some X.oid : Option Nat), some s)]) σ.id_order } := rfl

/-- Resolution for a fresh fixed handle when some entry of its assignment
order resolves at the tail: the direct lookup misses (the handle is
unbound), the parent scope is empty, and the recency fallback returns the
tail entry's object. -/
theorem resolve_fresh (s : String) (k n : Nat) (X : Obj) (hooks : List Hook)
    (σ : RegState) (itn : Interner) (l : List CompKey)
    (hmiss : alGet ((none : Option Nat), some s) σ.id_object_map = none)
    (horder : alGet k σ.id_order =
      some (l ++ [((some n : Option Nat), some s)]))
    (hlive : alGet ((some n : Option Nat), some s) σ.id_object_map = some X) :
    (get_referred_object (mkFixedRID s k) hooks σ itn).obj = some X := by
  have hn : step3_first_survivor (mkFixedRID s k) σ = some X := by
    unfold step3_first_survivor
    simp [mkFixedRID, horder, survives, hlive, idOpt, List.findSome?]
  have hobj : (get_similar_referred_object (mkFixedRID s k) σ itn).obj = some X := by
    rw [sim_obj]
    have hp : get_object_from_parent_scope (mkFixedRID s k) σ = none := rfl
    rw [hp, hn]
  unfold get_referred_object
  have hkey : object_key (mkFixedRID s k) = ((none : Option Nat), some s) := rfl
  rw [hkey, hmiss]
  simp only [hobj]

/-! ## Claim C1 -/

/-- Claim C1: after an object `X` is bound via `set_referred_object` through
one handle constructed with id string `s`, `get_referred_object` on every
other handle constructed with the same id `s` (i.e. by
`ResourceIdentifier(id=s)`: unbound and unscoped) returns that same object
`X`, while `X` remains reachable — here, in the state immediately after the
bind, where `X`'s map entry is present.  `hwf` states that every object-map
key carries a bound-object identity, which holds of every reachable
registry. -/
theorem c1_bound_object_resolves (s : String) (X : Obj) (hooks : List Hook)
    (σ : RegState) (itn0 itn1 itn2 : Interner) (A B : RID)
    (hwf : mapKeysBound σ = true)
    (hA : initFixed s none itn0 = (A, itn1))
    (hB : initFixed s none itn1 = (B, itn2)) :
    (get_referred_object B hooks
      (set_referred_object A X true none σ itn2).st
      (set_referred_object A X true none σ itn2).itn).obj = some X := by
  rw [initFixed_eq] at hA hB
  have hA1 : mkFixedRID s (get_resource_key (Raw.rstr s) itn0).1 = A :=
    congrArg Prod.fst hA
  have hA2 : (get_resource_key (Raw.rstr s) itn0).2 = itn1 :=
    congrArg Prod.snd hA
  have hs1 : (get_resource_key (Raw.rstr s) itn1).1 =
      (get_resource_key (Raw.rstr s) itn0).1 := by
    rw [← hA2]
    exact congrArg Prod.fst (get_resource_key_stable (Raw.rstr s) itn0)
  have hs2 : (get_resource_key (Raw.rstr s) itn1).2 = itn1 := by
    rw [← hA2]
    exact congrArg Prod.snd (get_resource_key_stable (Raw.rstr s) itn0)
  have hB1 : mkFixedRID s (get_resource_key (Raw.rstr s) itn0).1 = B := by
    rw [← hs1]
    exact congrArg Prod.fst hB
  have hB2 : itn1 = itn2 := by
    rw [← hs2]
    exact congrArg Prod.snd hB
  subst hA1
  subst hB1
  subst hB2
  rw [set_fresh_st]
  refine resolve_fresh s (get_resource_key (Raw.rstr s) itn0).1 X.oid X hooks _ _
    ((alGet (get_resource_key (Raw.rstr s) itn0).1 σ.id_order).getD []) ?_ ?_ ?_
  · show alGet ((none : Option Nat), some s)
      (alPut ((some X.oid : Option Nat), some s) X σ.id_object_map) = none
    rw [alGet_alPut_ne X σ.id_object_map (by simp)]
    exact mapKeysBound_get_none σ _ hwf
  · exact alGet_alPut_self _ _ σ.id_order
  · exact alGet_alPut_self _ _ σ.id_object_map

def c1wItn : Interner := ⟨[], 0⟩

def c1wItn1 : Interner := ⟨[(Raw.rstr "w1", 0)], 1⟩

def c1wA : RID := mkFixedRID "w1" 0

/-- Witness for C1 at a concrete instance: id `"w1"`, object `⟨3, 5⟩`,
empty registry. -/
theorem c1_bound_object_resolves_witness :
    mapKeysBound emptyReg = true ∧
    initFixed "w1" none c1wItn = (c1wA, c1wItn1) ∧
    initFixed "w1" none c1wItn1 = (c1wA, c1wItn1) ∧
    (get_referred_object c1wA []
      (set_referred_object c1wA ⟨3, 5⟩ true none emptyReg c1wItn1).st
      (set_referred_object c1wA ⟨3, 5⟩ true none emptyReg c1wItn1).itn).obj =
      some ⟨3, 5⟩ :=
  ⟨by decide, by decide, by decide,
   c1_bound_object_resolves "w1" ⟨3, 5⟩ [] emptyReg c1wItn c1wItn1 c1wItn1
     c1wA c1wA (by decide) (by decide) (by decide)⟩

/-! ## Claim C3 -/

def c3Itn0 : Interner := ⟨[], 0⟩

def c3Bind1 : SetResult :=
  set_referred_object (initFixed "r" none c3Itn0).1 ⟨1, 10⟩ true none emptyReg
    (initFixed "r" none c3Itn0).2

def c3Bind2 : SetResult :=
  set_referred_object c3Bind1.rid ⟨2, 20⟩ true none c3Bind1.st c3Bind1.itn

/-- The registry reached by binding `⟨1, 10⟩` and then `⟨2, 20⟩` under id
`"r"` and losing the second object to garbage collection: the assignment
order ends in a dead entry with a live entry before it. -/
def c3Reg : RegState := gcObject 2 c3Bind2.st

def c3Fresh : RID := (initFixed "r" none c3Bind2.itn).1

/-- Claim C3 (counterexample): in `c3Reg`, binding `⟨3, 30⟩` with
`warn=True` emits no notification, although the claim's `old` — the most
recent *live* object in the assignment order, `⟨1, 10⟩` — exists and
differs from the new object.  The source only inspects the (dead) last
entry. -/
theorem c3_warn_counterexample :
    (set_referred_object c3Fresh ⟨3, 30⟩ true none c3Reg c3Bind2.itn).warned
      = false ∧
    warnClaim c3Fresh ⟨3, 30⟩ true c3Reg = true ∧
    oldClaim c3Fresh c3Reg = some ⟨1, 10⟩ := by decide

/-- Claim C3 (amended): `set_referred_object(obj, warn)` signals the
rebinding-conflict notification iff `warn` holds and an old object exists
and differs (by `!=`) from `obj`, where `old` is the object mapped by the
handle's own composite key or, failing that, the object of the *last*
assignment-order entry provided that entry is still live — a dead last
entry yields no `old`, the list is not scanned further back. -/
theorem c3_warn_iff (h : RID) (obj : Obj) (warn : Bool)
    (parent : Option PyParent) (σ : RegState) (itn : Interner) :
    (set_referred_object h obj warn parent σ itn).warned = true ↔
      (warn = true ∧ ∃ o, oldCode h σ = some o ∧ o.val ≠ obj.val) := by
  unfold set_referred_object oldCode
  cases hd : alGet (object_key h) σ.id_object_map with
  | some o => simp [hd]
  | none =>
      cases hl : lastLive σ h.resource_key with
      | none => simp [hd, hl]
      | some o => simp [hd, hl]

/-- Witness for the amended C3: rebinding the handle of `c3Bind1` (bound to
`⟨1, 10⟩`) to the different object `⟨2, 20⟩` with `warn=True` does warn. -/
theorem c3_warn_iff_witness :
    (set_referred_object c3Bind1.rid ⟨2, 20⟩ true none c3Bind1.st
      c3Bind1.itn).warned = true :=
  (c3_warn_iff c3Bind1.rid ⟨2, 20⟩ true none c3Bind1.st c3Bind1.itn).mpr
    ⟨rfl, ⟨1, 10⟩, by decide, by decide⟩

/-! ## Claim C4 -/

theorem step3_pruned_map (h : RID) (σ : RegState) :
    (step3_pruned h σ).id_object_map = σ.id_object_map := by
  have hmu := get_newest_map_unchanged h σ
  rw [get_newest_eq] at hmu
  exact hmu

/-- After a failed recency scan, the handle's assignment-order row is
empty (if it existed at all). -/
theorem step3_pruned_order_empty (h : RID) (σ : RegState) (rk : Nat)
    (l : List CompKey) (hrk : h.resource_key = some rk)
    (horder : alGet rk σ.id_order = some l)
    (hnone : step3_first_survivor h σ = none) :
    alGet rk (step3_pruned h σ).id_order = some [] := by
  have h1 : (scanRev σ.id_object_map (idOpt h) l.reverse).1 = none := by
    rw [scanRev_eq]
    have := hnone
    unfold step3_first_survivor at this
    simp only [hrk, horder] at this
    exact this
  have h2 := scanRev_none_nil _ _ _ h1
  rw [scanRev_eq] at h2
  unfold step3_pruned
  simp only [hrk, horder]
  rw [alGet_alPut_self]
  simp only at h2
  rw [h2]
  rfl

/-- After a failed recency scan, the last-entry lookup of
`set_referred_object` finds nothing. -/
theorem lastLive_pruned_none (h : RID) (σ : RegState)
    (hnone : step3_first_survivor h σ = none) :
    lastLive (step3_pruned h σ) h.resource_key = none := by
  cases hrk : h.resource_key with
  | none => rfl
  | some rk =>
      cases horder : alGet rk σ.id_order with
      | none =>
          have hp : step3_pruned h σ = σ := by
            unfold step3_pruned
            simp [hrk, horder]
          rw [hp]
          unfold lastLive
          simp [horder]
      | some l =>
          have hrow := step3_pruned_order_empty h σ rk l hrk horder hnone
          unfold lastLive
          simp [hrow]

theorem set_warned_eq (h : RID) (obj : Obj) (warn : Bool)
    (parent : Option PyParent) (σ : RegState) (itn : Interner) :
    (set_referred_object h obj warn parent σ itn).warned =
      (warn && (match oldCode h σ with
        | some o => !(o.val == obj.val)
        | none => false)) := rfl

theorem hasRebinding_llWarn (h : RID) : hasRebinding (llWarn h) = false := by
  unfold llWarn hasRebinding
  cases h.object_id <;> simp

def c4Handle : RID := (initFixed "h" none ⟨[], 0⟩).1

def c4Itn : Interner := (initFixed "h" none ⟨[], 0⟩).2

/-- A hook that itself binds a different object `⟨2, 2⟩` to the id `"h"`
(as a Python hook may, by constructing and binding another handle) before
returning `⟨1, 1⟩`. -/
def c4MutHook : Hook := fun _ σ =>
  (some ⟨1, 1⟩,
   { σ with
     id_object_map :=
       alPut ((some 2 : Option Nat), some "h") ⟨2, 2⟩ σ.id_object_map,
     id_order := alPut 0 [((some 2 : Option Nat), some "h")] σ.id_order })

/-- Claim C4 (counterexample): the hook hit is bound through
`set_referred_object(out)` with the *default* `warn=True` (source line 299),
so a registry-mutating hook makes the implicit bind emit a
RebindingConflict notification — the claim says the bind happens with
`warn=False` and therefore emits none. -/
theorem c4_hook_bind_counterexample :
    (get_referred_object c4Handle [c4MutHook] emptyReg c4Itn).obj =
      some ⟨1, 1⟩ ∧
    (get_referred_object c4Handle [c4MutHook] emptyReg c4Itn).warns =
      [Warn.rebindingConflict (some "h")] := by decide

/-- Claim C4 (amended): when the direct, parent-scope and recency steps all
fail, the registered hooks are invoked in FIFO registration order with the
handle's id and the first non-absent result short-circuits the rest and is
returned; that object is bound via `set_referred_object` with the *default*
`warn=True`, yet — provided the hooks do not themselves rewrite the
registry — no RebindingConflict is emitted, because the failed steps left
no old object (the direct entry is absent and step 3 emptied the
assignment-order row). -/
theorem c4_hooks_fifo_no_conflict (h : RID) (σ : RegState) (itn : Interner)
    (fs : List (Option String → Option Obj))
    (hdirect : alGet (object_key h) σ.id_object_map = none)
    (hparent : get_object_from_parent_scope h σ = none)
    (hnewest : step3_first_survivor h σ = none) :
    (get_referred_object h (fs.map liftHook) σ itn).obj =
      fs.findSome? (fun f => f (idOpt h)) ∧
    hasRebinding (get_referred_object h (fs.map liftHook) σ itn).warns
      = false := by
  have hshape := sim_none_shape h σ itn hparent hnewest
  have hold : oldCode h (step3_pruned h σ) = none := by
    unfold oldCode
    rw [step3_pruned_map, hdirect, lastLive_pruned_none h σ hnewest]
  unfold get_referred_object
  simp only [hdirect, hshape]
  unfold hookPhase
  simp only [runHooks_lift]
  cases hf : fs.findSome? (fun f => f (idOpt h)) with
  | none => exact ⟨rfl, hasRebinding_llWarn h⟩
  | some o =>
      have hw : (set_referred_object h o true none (step3_pruned h σ) itn).warned
          = false := by
        rw [set_warned_eq, hold]
        rfl
      refine ⟨rfl, ?_⟩
      simp [hw, hasRebinding_llWarn h]

def c4PureA : Option String → Option Obj := fun _ => none

def c4PureB : Option String → Option Obj := fun _ => some ⟨5, 5⟩

def c4PureC : Option String → Option Obj := fun _ => some ⟨6, 6⟩

/-- Witness for the amended C4 at a concrete instance: three pure hooks,
the second fires first and short-circuits the third; no conflict warning. -/
theorem c4_hooks_fifo_no_conflict_witness :
    alGet (object_key c4Handle) emptyReg.id_object_map = none ∧
    get_object_from_parent_scope c4Handle emptyReg = none ∧
    step3_first_survivor c4Handle emptyReg = none ∧
    ((get_referred_object c4Handle
        ([c4PureA, c4PureB, c4PureC].map liftHook) emptyReg c4Itn).obj =
      [c4PureA, c4PureB, c4PureC].findSome? (fun f => f (idOpt c4Handle)) ∧
    hasRebinding (get_referred_object c4Handle
        ([c4PureA, c4PureB, c4PureC].map liftHook) emptyReg c4Itn).warns
      = false) :=
  ⟨by decide, by decide, by decide,
   c4_hooks_fifo_no_conflict c4Handle emptyReg c4Itn [c4PureA, c4PureB, c4PureC]
     (by decide) (by decide) (by decide)⟩

/-! ## Claims C5 and C6 -/

def c5Parent : Obj := ⟨7, 0⟩

def c5Init : RID × Interner :=
  initFixed "a" (some (PyParent.pobj c5Parent)) ⟨[], 0⟩

/-- Claim C5, evaluated at the failing input (a handle carrying a parent
scope): `__deepcopy__` *retains* the parent key — the `new._parent_key =
None` line is swallowed by the descriptor's `if value is not None` guard —
while resource-key identity and all other state are shared: the copy equals
the original, parent included.  The claim (and the spec) say the ParentKey
must be cleared. -/
theorem c5_deepcopy_keeps_parent :
    c5Init.1.parent_key = some 1 ∧
    (deepcopyRID c5Init.1 c5Init.2).1.parent_key = some 1 ∧
    (deepcopyRID c5Init.1 c5Init.2).1.resource_key = c5Init.1.resource_key ∧
    (deepcopyRID c5Init.1 c5Init.2).1 = c5Init.1 := by decide

def c6Persisted : RID :=
  { fixed := true, idDict := some "x", pfx := none, uuid := none,
    resource_key := some 500, parent_key := some 501, object_id := some 42 }

/-- Claim C6, evaluated at the failing input (a persisted handle with id
`"x"`, a pickled non-interned resource key 500 and parent key 501):
`__setstate__` leaves the parent key in place (`self._parent_key = None`
is a descriptor no-op) and stores `intern(id(intern("x")))` — key 1 —
as the resource key, while a freshly constructed handle with the same id
gets `intern("x")` — key 0.  The restored handle therefore does not share
`_id_order`/`_parent_id_tree` rows with fresh handles, contradicting the
claim and the function's own docstring ("Make sure the resource_key
follows the singleton pattern"). -/
theorem c6_setstate_reinterns_wrong_key :
    (setstateRID c6Persisted ⟨[], 0⟩).1.parent_key = some 501 ∧
    (setstateRID c6Persisted ⟨[], 0⟩).1.resource_key = some 1 ∧
    (initFixed "x" none (setstateRID c6Persisted ⟨[], 0⟩).2).1.resource_key
      = some 0 ∧
    (setstateRID c6Persisted ⟨[], 0⟩).1.resource_key ≠
      (initFixed "x" none (setstateRID c6Persisted ⟨[], 0⟩).2).1.resource_key := by
  decide

/-! ## Claim C7 -/

theorem set_rid_fixed (h : RID) (obj : Obj) (warn : Bool)
    (parent : Option PyParent) (σ : RegState) (itn : Interner) :
    (set_referred_object h obj warn parent σ itn).rid.fixed = h.fixed := by
  cases parent <;> rfl

theorem set_rid_idDict (h : RID) (obj : Obj) (warn : Bool)
    (parent : Option PyParent) (σ : RegState) (itn : Interner) :
    (set_referred_object h obj warn parent σ itn).rid.idDict = h.idDict := by
  cases parent <;> rfl

theorem set_rid_object_id (h : RID) (obj : Obj) (warn : Bool)
    (parent : Option PyParent) (σ : RegState) (itn : Interner) :
    (set_referred_object h obj warn parent σ itn).rid.object_id
      = some obj.oid := by
  cases parent <;> rfl

theorem set_rid_parent_some (h : RID) (obj : Obj) (warn : Bool)
    (p : PyParent) (σ : RegState) (itn : Interner) :
    (set_referred_object h obj warn (some p) σ itn).rid.parent_key
      = some (get_resource_key (rawOf p) itn).1 := rfl

theorem set_warn_false (h : RID) (obj : Obj) (parent : Option PyParent)
    (σ : RegState) (itn : Interner) :
    (set_referred_object h obj false parent σ itn).warned = false := by
  rw [set_warned_eq]
  rfl

/-- Binding always makes the bound object retrievable under the handle's
new composite key. -/
theorem set_bound_lookup (h : RID) (obj : Obj) (warn : Bool)
    (parent : Option PyParent) (σ : RegState) (itn : Interner) :
    alGet (object_key (set_referred_object h obj warn parent σ itn).rid)
      (set_referred_object h obj warn parent σ itn).st.id_object_map
      = some obj := by
  unfold set_referred_object
  cases parent <;> cases hpk : h.parent_key <;> cases hrk : h.resource_key <;>
    simp [descriptorSetParent, hpk, hrk, alGet_alPut_self]

def qidParentOf (e : Except String QidResult) : Option (Option Nat) :=
  match e with
  | .ok r => some r.rid.parent_key
  | .error _ => none

def c7Init : RID × Interner :=
  initFixed "foo" (some (PyParent.pobj ⟨100, 5⟩)) ⟨[], 1000⟩

def c7Bind : SetResult :=
  set_referred_object c7Init.1 ⟨1, 1⟩ true none emptyReg c7Init.2

/-- Claim C7 (counterexample): for a bound handle whose parent scope is key
instance 1001, the new handle returned by `get_quakeml_id` carries parent
key 1003 = `intern(id(key 1001))`, not 1001: the original's ParentKey is
*not* preserved on the new handle. -/
theorem c7_parent_not_preserved :
    c7Bind.rid.parent_key = some 1001 ∧
    qidParentOf (get_quakeml_id c7Bind.rid "local" "u" [] c7Bind.st c7Bind.itn)
      = some (some 1003) ∧
    some 1003 ≠ (some 1001 : Option Nat) := by decide

/-- Claim C7 (amended): `get_quakeml_id` builds a new fixed handle from the
URI-formatted string; when the original currently resolves to an object
`o`, it binds `o` to the new handle with `warn=False` — adding no
rebinding-conflict notification — and sets the new handle's ParentKey by
passing the original's key instance through the descriptor, which interns
the key's *identity* (`Raw.rint pk`), in general a key distinct from the
original's; when the original has no ParentKey, neither has the new
handle. -/
theorem c7_get_quakeml_id_amended (h : RID) (hooks : List Hook)
    (σ : RegState) (itn : Interner) (auth u nid : String) (o : Obj)
    (hok : get_quakeml_uri_str h auth u = .ok nid)
    (hobj : (get_referred_object h hooks σ (initFixed nid none itn).2).obj
      = some o) :
    ∃ r, get_quakeml_id h auth u hooks σ itn = .ok r ∧
      r.rid.fixed = true ∧
      r.rid.idDict = some nid ∧
      r.rid.object_id = some o.oid ∧
      alGet (object_key r.rid) r.st.id_object_map = some o ∧
      r.warns = (get_referred_object h hooks σ (initFixed nid none itn).2).warns ∧
      r.rid.parent_key =
        (match h.parent_key with
         | none => none
         | some pk => some (get_resource_key (Raw.rint pk)
             (get_referred_object h hooks σ (initFixed nid none itn).2).itn).1) := by
  unfold get_quakeml_id
  simp only [hok]
  unfold quakemlIdBind
  simp only [hobj]
  refine ⟨_, rfl, ?_, ?_, ?_, ?_, ?_, ?_⟩
  · rw [set_rid_fixed]
    rfl
  · rw [set_rid_idDict]
    rfl
  · rw [set_rid_object_id]
  · exact set_bound_lookup (initFixed nid none itn).1 o false
      (match (get_referred_object h hooks σ (initFixed nid none itn).2).rid.parent_key with
       | some pk => some (PyParent.pkey pk)
       | none => none)
      (get_referred_object h hooks σ (initFixed nid none itn).2).st
      (get_referred_object h hooks σ (initFixed nid none itn).2).itn
  · rw [set_warn_false]
    simp
  · rw [get_rid_parent_unchanged]
    cases hpk : h.parent_key with
    | none =>
        rw [set_parent_unchanged]
        rfl
    | some pk =>
        rw [set_rid_parent_some]
        rfl

/-- Witness for the amended C7 at the concrete scenario of the
counterexample: the bound, parent-scoped handle with id `"foo"` yields a
new handle with id `"smi:local/foo"`, parent key 1003 = intern(id(1001)). -/
theorem c7_get_quakeml_id_amended_witness :
    get_quakeml_uri_str c7Bind.rid "local" "u" = .ok "smi:local/foo" ∧
    (get_referred_object c7Bind.rid [] c7Bind.st
        (initFixed "smi:local/foo" none c7Bind.itn).2).obj = some ⟨1, 1⟩ ∧
    qidParentOf (get_quakeml_id c7Bind.rid "local" "u" [] c7Bind.st c7Bind.itn)
      = some (some 1003) := by
  refine ⟨by rfl, by decide, ?_⟩
  obtain ⟨r, hr, hfix, hid, hoid, hmap, hwarns, hpar⟩ :=
    c7_get_quakeml_id_amended c7Bind.rid [] c7Bind.st c7Bind.itn "local" "u"
      "smi:local/foo" ⟨1, 1⟩ (by rfl) (by decide)
  simp only [qidParentOf, hr]
  rw [hpar]
  decide

/-! ## Claim C8 -/

/-- Claim C8: `get_quakeml_uri_str` returns the id unchanged when it
matches the QuakeML URI regex; otherwise it returns `smi:{authority}/{id}`
when that matches; otherwise it raises `ValueError`; an empty or
whitespace-only id is first replaced by the freshly generated uuid (so the
formatted string never carries an empty segment and the result no longer
depends on the id); the handle itself is never written — the embedding of
the source reads `self.id` into a local and returns a value. -/
theorem c8_quakeml_uri (h : RID) (s auth u : String) (hid : idOpt h = some s) :
    (stripIsEmpty s = false → validQuakemlUri s = true →
        get_quakeml_uri_str h auth u = .ok s) ∧
    (stripIsEmpty s = false → validQuakemlUri s = false →
        validQuakemlUri ("smi:" ++ auth ++ "/" ++ s) = true →
        get_quakeml_uri_str h auth u = .ok ("smi:" ++ auth ++ "/" ++ s)) ∧
    (stripIsEmpty s = false → validQuakemlUri s = false →
        validQuakemlUri ("smi:" ++ auth ++ "/" ++ s) = false →
        ∃ msg, get_quakeml_uri_str h auth u = .error msg) ∧
    (stripIsEmpty s = true →
        get_quakeml_uri_str h auth u = quakemlUriCore u auth) := by
  unfold get_quakeml_uri_str
  rw [hid]
  refine ⟨?_, ?_, ?_, ?_⟩
  · intro h1 h2
    unfold quakemlUriCore
    simp [Option.getD, h1, h2]
  · intro h1 h2 h3
    unfold quakemlUriCore
    simp [Option.getD, h1, h2, h3]
  · intro h1 h2 h3
    unfold quakemlUriCore
    simp [Option.getD, h1, h2, h3]
  · intro h1
    simp [Option.getD, h1]

def c8Handle : RID := mkFixedRID "some_id" 0

/-- Witness for C8 at the docstring example: `"some_id"` with the default
authority formats to `"smi:local/some_id"`. -/
theorem c8_quakeml_uri_witness :
    idOpt c8Handle = some "some_id" ∧
    stripIsEmpty "some_id" = false ∧
    validQuakemlUri "some_id" = false ∧
    validQuakemlUri ("smi:" ++ "local" ++ "/" ++ "some_id") = true ∧
    get_quakeml_uri_str c8Handle "local" "u"
      = .ok ("smi:" ++ "local" ++ "/" ++ "some_id") :=
  ⟨by decide, by decide, by decide, by decide,
   (c8_quakeml_uri c8Handle "some_id" "local" "u" (by decide)).2.1
     (by decide) (by decide) (by decide)⟩

/-! ## Claim C9 -/

/-- A stand-in for the opaque per-process Python string hash: the length
oracle.  Its salt `lenHash "RESOURCE_ID" = 11` is nonzero, as the salt of
any reasonable string hash is. -/
def lenHash (t : String) : Int := t.length

/-- Claim C9 (counterexample): `__hash__` deliberately salts the id hash
with `hash("RESOURCE_ID")`, so `hash(handle) = hash(s)` fails for every
hash oracle with a nonzero salt — here the length oracle at `s = "foo"`:
`11 + 3 ≠ 3` — even though the handle compares equal to the raw string. -/
theorem c9_hash_counterexample :
    ridEqStr (mkFixedRID "foo" 0) "foo" = true ∧
    ridHash lenHash "foo" ≠ lenHash "foo" := by decide

/-- Claim C9 (amended): two handles constructed with the same id `s`
compare equal (and hash identically, both hashes being `ridHash strHash s`
computed from the same id), each compares equal to the raw string `s`, but
`hash(handle) = strHash "RESOURCE_ID" + strHash s` differs from
`strHash s` whenever the salt is nonzero: the salting deliberately makes a
handle and its id string *distinct* dictionary keys. -/
theorem c9_eq_hash_amended (s : String) (itn0 itn1 itn2 : Interner)
    (A B : RID) (strHash : String → Int)
    (hA : initFixed s none itn0 = (A, itn1))
    (hB : initFixed s none itn1 = (B, itn2)) :
    idOpt A = some s ∧ idOpt B = some s ∧
    ridEqRid A B = true ∧ ridEqStr A s = true ∧ ridEqStr B s = true ∧
    (strHash "RESOURCE_ID" ≠ 0 → ridHash strHash s ≠ strHash s) := by
  rw [initFixed_eq] at hA hB
  have hA1 : mkFixedRID s (get_resource_key (Raw.rstr s) itn0).1 = A :=
    congrArg Prod.fst hA
  have hB1 : mkFixedRID s (get_resource_key (Raw.rstr s) itn1).1 = B :=
    congrArg Prod.fst hB
  subst hA1
  subst hB1
  have hidA : idOpt (mkFixedRID s (get_resource_key (Raw.rstr s) itn0).1)
      = some s := rfl
  have hidB : idOpt (mkFixedRID s (get_resource_key (Raw.rstr s) itn1).1)
      = some s := rfl
  refine ⟨hidA, hidB, ?_, ?_, ?_, ?_⟩
  · simp [ridEqRid, hidA, hidB]
  · simp [ridEqStr, hidA]
  · simp [ridEqStr, hidB]
  · intro hz hcontra
    apply hz
    unfold ridHash at hcontra
    omega

/-- Witness for the amended C9: id `"foo"`, the length oracle. -/
theorem c9_eq_hash_amended_witness :
    initFixed "foo" none c1wItn
      = (mkFixedRID "foo" 0, ⟨[(Raw.rstr "foo", 0)], 1⟩) ∧
    lenHash "RESOURCE_ID" ≠ 0 ∧
    ridEqRid (mkFixedRID "foo" 0) (mkFixedRID "foo" 0) = true ∧
    ridEqStr (mkFixedRID "foo" 0) "foo" = true ∧
    ridHash lenHash "foo" ≠ lenHash "foo" := by
  have h := c9_eq_hash_amended "foo" c1wItn ⟨[(Raw.rstr "foo", 0)], 1⟩
    ⟨[(Raw.rstr "foo", 0)], 1⟩ (mkFixedRID "foo" 0) (mkFixedRID "foo" 0)
    lenHash (by decide) (by decide)
  exact ⟨by decide, by decide, h.2.2.1, h.2.2.2.1, h.2.2.2.2.2 (by decide)⟩

/-! ## Claim C10 -/

/-- Claim C10: assigning a non-string value to `id` raises `TypeError`,
but only after `self.fixed = True` has executed: the failed assignment
leaves the handle mutated, and a previously generated (prefix + token)
handle afterwards reports its id as `None` instead of its prefix/token
string — the error is not atomic. -/
theorem c10_id_setter_not_atomic (p u : String) (itn : Interner) :
    idOpt (initGenerated p u none itn).1 =
      some ((if endsSlash p then p else p ++ "/") ++ u) ∧
    (idSetter (initGenerated p u none itn).1 PyVal.vnonstr).typeError = true ∧
    (idSetter (initGenerated p u none itn).1 PyVal.vnonstr).rid.fixed = true ∧
    idOpt (idSetter (initGenerated p u none itn).1 PyVal.vnonstr).rid = none :=
  ⟨rfl, rfl, rfl, rfl⟩

end ObsPyRid
